import Mathlib

/-!
Verification development for the Divine Admin Panel server.

The server keeps two in-memory aggregates — `SiteState` (site lockdown and a
single expiring broadcast) and `AccessStore` (per-client records, per-IP ban
records, an access-lockdown flag) — and serves HTTP endpoints over them.
Every function below is a direct translation of the corresponding JavaScript
function; time (`Date.now()`) and the random broadcast id are passed in as
explicit parameters, persistence (`saveState` / `saveAccess`, which write the
whole aggregate) is modelled by returning the list of snapshots saved during
the operation, in order.
-/

namespace Panel

/-- Drop leading whitespace from a character list. -/
def dropLeadingWS : List Char → List Char
  | [] => []
  | c :: rest => if c.isWhitespace then dropLeadingWS rest else c :: rest

/-- JS `s.trim()`: strip whitespace from both ends.  (Structurally recursive
over the character list so that concrete inputs evaluate.) -/
def jsTrim (s : String) : String :=
  ⟨(dropLeadingWS (dropLeadingWS s.data).reverse).reverse⟩

/-- JS `s.toLowerCase()` (restricted to the per-character lowering relevant
to the stored ASCII strings). -/
def jsToLower (s : String) : String := ⟨s.data.map Char.toLower⟩

/-- JS `s.slice(0, n)`. -/
def jsTake (s : String) (n : Nat) : String := ⟨s.data.take n⟩

/-- JS `normalizeStr` applied to a value already known to be a string:
`x.trim()`. -/
def normalizeStr (x : String) : String := jsTrim x

/-- JS `normalizeStr` applied to an optional JSON field: non-strings become
`""`. -/
def normalizeStrOpt : Option String → String
  | none => ""
  | some s => jsTrim s

/-- JS `clampStr(s, maxLen)`: trim, empty stays empty, truncate to `maxLen`. -/
def clampStr (s : String) (maxLen : Nat) : String :=
  let x := normalizeStr s
  if x = "" then ""
  else if x.length ≤ maxLen then x
  else jsTake x maxLen

/-- `clampStr` on an optional JSON field (JS passes `undefined` through
`normalizeStr`, yielding `""`). -/
def clampStrOpt (o : Option String) (maxLen : Nat) : String :=
  match o with
  | none => ""
  | some s => clampStr s maxLen

/-- JS `formatUA`. -/
def formatUA (ua : String) : String := clampStr ua 300

/-- Does `hay` start with `needle`? (character lists) -/
def charsStartWith : List Char → List Char → Bool
  | [], _ => true
  | _ :: _, [] => false
  | a :: as, b :: bs => a == b && charsStartWith as bs

/-- Does the character list contain `needle` as a contiguous run? -/
def charsContain (needle : List Char) : List Char → Bool
  | [] => needle.isEmpty
  | c :: rest => charsStartWith needle (c :: rest) || charsContain needle rest

/-- JS `s.includes(sub)`. -/
def strIncludes (s sub : String) : Bool := charsContain sub.toList s.toList

/-- JS `getRequestIP`: the source address as Express reports it, trimmed. -/
def getRequestIP (ip : String) : String := normalizeStr ip

/-- Association-list lookup (JS object property read). -/
def lookupKey {α : Type} : List (String × α) → String → Option α
  | [], _ => none
  | (k', v) :: rest, k => if k' = k then some v else lookupKey rest k

/-- Association-list write (JS object property assignment): replaces the
binding when the key is present, appends it otherwise. -/
def setKey {α : Type} : List (String × α) → String → α → List (String × α)
  | [], k, v => [(k, v)]
  | (k', v') :: rest, k, v =>
      if k' = k then (k, v) :: rest else (k', v') :: setKey rest k v

/-- Association-list delete (JS `delete obj[k]`). -/
def delKey {α : Type} : List (String × α) → String → List (String × α)
  | [], _ => []
  | (k', v') :: rest, k => if k' = k then rest else (k', v') :: delKey rest k

/-- A per-client record, as created by `ensureClientRecord`.  `status` is kept
as the raw stored string: legacy values such as `"unbanned"` can appear in a
loaded store and are renormalized lazily. -/
structure ClientRecord where
  status : String
  firstSeenAt : Nat
  lastSeenAt : Nat
  verifiedAt : Nat
  suspiciousAt : Nat
  ua : String
  platform : String
  language : String
  timezone : String
  screen : String
  ipFirst : String
  ipLast : String
  ipLastSeenAt : Nat
  banMessage : String
deriving DecidableEq, Repr

/-- A per-IP ban record. -/
structure IPBanRecord where
  message : String
  createdAt : Nat
  updatedAt : Nat
deriving DecidableEq, Repr

/-- The `accessStore` aggregate. -/
structure AccessStore where
  lockdown : Bool
  clients : List (String × ClientRecord)
  ipBans : List (String × IPBanRecord)
deriving DecidableEq, Repr

/-- JS `normalizeLegacyStatus`. -/
def normalizeLegacyStatus (status : String) : String :=
  let s := jsToLower (normalizeStr status)
  if s = "" then "unverified"
  else if s = "unbanned" then "unverified"
  else if s = "banned" then "banned"
  else if s = "verified" then "verified"
  else if s = "unverified" then "unverified"
  else if s = "suspicious" then "suspicious"
  else "unverified"

/-- The fresh record built by `ensureClientRecord` on first sight. -/
def freshClientRecord (now : Nat) : ClientRecord :=
  { status := "unverified"
    firstSeenAt := now
    lastSeenAt := now
    verifiedAt := 0
    suspiciousAt := 0
    ua := ""
    platform := ""
    language := ""
    timezone := ""
    screen := ""
    ipFirst := ""
    ipLast := ""
    ipLastSeenAt := 0
    banMessage := "" }

/-- Result of `ensureClientRecord`: the record handed back (`null` for an
empty id), the store after the call, and the snapshots saved. -/
structure EnsureResult where
  found : Option ClientRecord
  store : AccessStore
  saves : List AccessStore
deriving DecidableEq, Repr

/-- JS `ensureClientRecord(clientID)`. -/
def ensureClientRecord (store : AccessStore) (now : Nat) (clientID : String) :
    EnsureResult :=
  let id := normalizeStr clientID
  if id = "" then ⟨none, store, []⟩
  else
    match lookupKey store.clients id with
    | some existing =>
        let upd := { existing with
                      lastSeenAt := now
                      status := normalizeLegacyStatus existing.status }
        ⟨some upd, { store with clients := setKey store.clients id upd }, []⟩
    | none =>
        let record := freshClientRecord now
        let store' := { store with clients := setKey store.clients id record }
        ⟨some record, store', [store']⟩

/-- Explicit device payload of `/api/hello` (`""` models an absent / falsy
field, matching the JS `d.x || fallback` reads). -/
structure DeviceInfo where
  ua : String
  platform : String
  language : String
  timezone : String
  screen : String
deriving DecidableEq, Repr

/-- The device object JS builds when no payload is given (`d = {}`). -/
def emptyDevice : DeviceInfo := ⟨"", "", "", "", ""⟩

/-- The field updates `recordClientTelemetry` performs on the record:
`ipN` is the (already trimmed) request IP, `uaHeader` the raw user-agent
header. -/
def applyTelemetry (record : ClientRecord) (now : Nat) (ipN uaHeader : String)
    (device : Option DeviceInfo) : ClientRecord :=
  let uaH := formatUA uaHeader
  let d := device.getD emptyDevice
  let r1 := { record with
                ipFirst := if record.ipFirst = "" ∧ ipN ≠ "" then ipN
                           else record.ipFirst }
  let r2 := if ipN ≠ "" then { r1 with ipLast := ipN, ipLastSeenAt := now }
            else r1
  { r2 with
      ua := formatUA (if d.ua ≠ "" then d.ua else uaH)
      platform := clampStr d.platform 80
      language := clampStr d.language 40
      timezone := clampStr d.timezone 64
      screen := clampStr d.screen 32
      lastSeenAt := now }

/-- JS `recordClientTelemetry(req, clientID, device)`. -/
def recordClientTelemetry (store : AccessStore) (now : Nat)
    (ip uaHeader clientID : String) (device : Option DeviceInfo) :
    AccessStore × List AccessStore :=
  let er := ensureClientRecord store now clientID
  match er.found with
  | none => (er.store, er.saves)
  | some record =>
      let id := normalizeStr clientID
      let ipN := getRequestIP ip
      let r2 := applyTelemetry record now ipN uaHeader device
      let store2 := { er.store with clients := setKey er.store.clients id r2 }
      (store2, er.saves ++ [store2])

/-- JS `isDesktopish(rec)`. -/
def isDesktopish (record : ClientRecord) : Bool :=
  let ua := jsToLower record.ua
  let platform := jsToLower record.platform
  strIncludes platform "win" || strIncludes platform "mac" ||
    strIncludes ua "windows" || strIncludes ua "mac os"

/-- An access decision.  `status` and `banMessage` are optional because the JS
decision objects carry them only on some branches; `/api/check` reads them
with `decision.x || fallback`. -/
structure Decision where
  banned : Bool
  allowed : Bool
  reason : String
  status : Option String
  banMessage : Option String
deriving DecidableEq, Repr

/-- JS `x || fallback` on an optional string field. -/
def jsOr (x : Option String) (fallback : String) : String :=
  match x with
  | none => fallback
  | some s => if s = "" then fallback else s

/-- JS `ipBanDecision(ip)` (the `allowed:false` added by the caller's spread
is folded in here). -/
def ipBanDecision (store : AccessStore) (ip : String) : Option Decision :=
  let x := normalizeStr ip
  if x = "" then none
  else
    match lookupKey store.ipBans x with
    | none => none
    | some record =>
        some { banned := true
               allowed := false
               reason := "ip_ban"
               status := none
               banMessage := some (clampStr record.message 500) }

/-- JS `computeAccessDecision(req, clientID)`.  Returns the decision, the
store after evaluation (evaluation may renormalize a legacy status and may
flip `unverified` to `suspicious`), and the saved snapshots. -/
def computeAccessDecision (store : AccessStore) (now : Nat)
    (ip clientID : String) : Decision × AccessStore × List AccessStore :=
  let id := normalizeStr clientID
  let ipN := getRequestIP ip
  match ipBanDecision store ipN with
  | some d => (d, store, [])
  | none =>
    if id = "" then
      if store.lockdown then
        ({ banned := true, allowed := false, reason := "missing_client_id",
           status := none, banMessage := none }, store, [])
      else
        ({ banned := false, allowed := true,
           reason := "missing_client_id_allowed",
           status := none, banMessage := none }, store, [])
    else
      match lookupKey store.clients id with
      | none =>
          if store.lockdown then
            ({ banned := true, allowed := false, reason := "lockdown_unknown",
               status := none, banMessage := none }, store, [])
          else
            ({ banned := false, allowed := true, reason := "unknown_allowed",
               status := some "unverified", banMessage := none }, store, [])
      | some rec0 =>
          let record := { rec0 with status := normalizeLegacyStatus rec0.status }
          let store1 := { store with clients := setKey store.clients id record }
          if record.status = "banned" then
            ({ banned := true, allowed := false, reason := "client_ban",
               status := some "banned",
               banMessage := some (clampStr record.banMessage 500) },
             store1, [])
          else if record.status = "suspicious" then
            ({ banned := false, allowed := true, reason := "client_suspicious",
               status := some "suspicious", banMessage := none }, store1, [])
          else if record.status = "unverified" ∧ isDesktopish record then
            let r2 := { record with status := "suspicious", suspiciousAt := now }
            let store2 := { store1 with clients := setKey store1.clients id r2 }
            ({ banned := false, allowed := true,
               reason := "desktop_unverified_marked_suspicious",
               status := some "suspicious", banMessage := none },
             store2, [store2])
          else if store.lockdown then
            let st := normalizeLegacyStatus record.status
            if st ≠ "verified" then
              ({ banned := true, allowed := false,
                 reason := "lockdown_not_verified",
                 status := some st, banMessage := none }, store1, [])
            else
              ({ banned := false, allowed := true, reason := "lockdown_verified",
                 status := some st, banMessage := none }, store1, [])
          else
            ({ banned := false, allowed := true, reason := "known_allowed",
               status := some record.status, banMessage := none }, store1, [])

/-- An endpoint outcome: `badRequest` is the 400 `{ok:false, error}` reply,
`ok` the 200 `{ok:true, ...}` payload. -/
inductive ApiResp (α : Type) where
  | badRequest (error : String)
  | ok (value : α)
deriving DecidableEq, Repr

/-- The JSON body of a `POST /api/check` 200 reply. -/
structure CheckResponse where
  ok : Bool
  banned : Bool
  allowed : Bool
  lockdown : Bool
  status : String
  reason : String
  banMessage : String
deriving DecidableEq, Repr

/-- `POST /api/hello` handler.  200 payload is `(clientID, status)`. -/
def apiHello (store : AccessStore) (now : Nat) (ip uaHeader : String)
    (bodyClientID : Option String) (device : Option DeviceInfo) :
    ApiResp (String × String) × AccessStore × List AccessStore :=
  let clientID := normalizeStrOpt bodyClientID
  if clientID = "" then (.badRequest "clientID required", store, [])
  else
    let (store1, sv1) := recordClientTelemetry store now ip uaHeader clientID device
    let er := ensureClientRecord store1 now clientID
    let status := match er.found with
      | some r => normalizeLegacyStatus r.status
      | none => "unverified"
    (.ok (clientID, status), er.store, sv1 ++ er.saves)

/-- `POST /api/auth` handler: the "Access Restricted" PIN gate.  The 200
payload is the `allowed` flag; on a correct PIN the client's record is set to
`verified` unconditionally. -/
def apiAuth (store : AccessStore) (now : Nat) (authPin : String)
    (ip uaHeader : String) (bodyClientID bodyPinAttempt : Option String) :
    Bool × AccessStore × List AccessStore :=
  let clientID := normalizeStrOpt bodyClientID
  let pinAttempt := normalizeStrOpt bodyPinAttempt
  let (store1, sv1) :=
    if clientID ≠ "" then recordClientTelemetry store now ip uaHeader clientID none
    else (store, [])
  if authPin = "" then (false, store1, sv1)
  else
    let allowed := pinAttempt = authPin
    if allowed ∧ clientID ≠ "" then
      let er := ensureClientRecord store1 now clientID
      match er.found with
      | some record =>
          let r := { record with status := "verified", verifiedAt := now,
                                 lastSeenAt := now }
          let store3 := { er.store with
                            clients := setKey er.store.clients (normalizeStr clientID) r }
          (true, store3, sv1 ++ er.saves ++ [store3])
      | none => (true, er.store, sv1 ++ er.saves)
    else (allowed, store1, sv1)

/-- `POST /api/check` handler. -/
def apiCheck (store : AccessStore) (now : Nat) (ip uaHeader : String)
    (bodyClientID : Option String) :
    CheckResponse × AccessStore × List AccessStore :=
  let clientID := normalizeStrOpt bodyClientID
  let (store1, sv1) :=
    if clientID ≠ "" then recordClientTelemetry store now ip uaHeader clientID none
    else (store, [])
  let (d, store2, sv2) := computeAccessDecision store1 now ip clientID
  ({ ok := true
     banned := d.banned
     allowed := d.allowed
     lockdown := store2.lockdown
     status := jsOr d.status "unverified"
     reason := jsOr (some d.reason) ""
     banMessage := jsOr d.banMessage "" },
   store2, sv1 ++ sv2)

/-- `POST /api/unban` handler: self-service unban with a separate PIN.  200
payload is the `allowed` flag. -/
def apiUnban (store : AccessStore) (now : Nat) (unbanPin : String)
    (ip uaHeader : String) (bodyClientID bodyPinAttempt : Option String) :
    ApiResp Bool × AccessStore × List AccessStore :=
  let clientID := normalizeStrOpt bodyClientID
  let pinAttempt := normalizeStrOpt bodyPinAttempt
  if clientID = "" then (.badRequest "clientID required", store, [])
  else
    let (store1, sv1) := recordClientTelemetry store now ip uaHeader clientID none
    if unbanPin = "" then (.ok false, store1, sv1)
    else if pinAttempt ≠ unbanPin then (.ok false, store1, sv1)
    else
      let er := ensureClientRecord store1 now clientID
      match er.found with
      | some record =>
          let r := { record with status := "unverified", banMessage := "",
                                 lastSeenAt := now }
          let store3 := { er.store with
                            clients := setKey er.store.clients (normalizeStr clientID) r }
          (.ok true, store3, sv1 ++ er.saves ++ [store3])
      | none => (.ok true, er.store, sv1 ++ er.saves)

/-- `POST /api/admin/verify` handler (past the admin-PIN check).  200 payload
is the resulting status string. -/
def apiAdminVerify (store : AccessStore) (now : Nat)
    (bodyClientID : Option String) :
    ApiResp String × AccessStore × List AccessStore :=
  let clientID := normalizeStrOpt bodyClientID
  if clientID = "" then (.badRequest "clientID required", store, [])
  else
    let er := ensureClientRecord store now clientID
    match er.found with
    | none => (.badRequest "clientID required", er.store, er.saves)
    | some record =>
        let r := { record with status := "verified", verifiedAt := now,
                               lastSeenAt := now }
        let store' := { er.store with clients := setKey er.store.clients (normalizeStr clientID) r }
        (.ok r.status, store', er.saves ++ [store'])

/-- `POST /api/admin/suspicious` handler. -/
def apiAdminSuspicious (store : AccessStore) (now : Nat)
    (bodyClientID : Option String) :
    ApiResp String × AccessStore × List AccessStore :=
  let clientID := normalizeStrOpt bodyClientID
  if clientID = "" then (.badRequest "clientID required", store, [])
  else
    let er := ensureClientRecord store now clientID
    match er.found with
    | none => (.badRequest "clientID required", er.store, er.saves)
    | some record =>
        let r := { record with status := "suspicious", suspiciousAt := now,
                               lastSeenAt := now }
        let store' := { er.store with clients := setKey er.store.clients (normalizeStr clientID) r }
        (.ok r.status, store', er.saves ++ [store'])

/-- `POST /api/admin/clear-suspicious` handler. -/
def apiAdminClearSuspicious (store : AccessStore) (now : Nat)
    (bodyClientID : Option String) :
    ApiResp String × AccessStore × List AccessStore :=
  let clientID := normalizeStrOpt bodyClientID
  if clientID = "" then (.badRequest "clientID required", store, [])
  else
    let er := ensureClientRecord store now clientID
    match er.found with
    | none => (.badRequest "clientID required", er.store, er.saves)
    | some record =>
        if normalizeLegacyStatus record.status = "suspicious" then
          let r := { record with status := "unverified", lastSeenAt := now }
          let store' := { er.store with
                            clients := setKey er.store.clients (normalizeStr clientID) r }
          (.ok (normalizeLegacyStatus r.status), store', er.saves ++ [store'])
        else
          (.ok (normalizeLegacyStatus record.status), er.store, er.saves)

/-- `POST /api/admin/ban` handler.  In the source the record returned by
`ensureClientRecord` is dereferenced without a null check; with a non-empty
`clientID` it is never null, and the impossible branch is mapped to the same
400 reply as a missing id. -/
def apiAdminBan (store : AccessStore) (now : Nat)
    (bodyClientID bodyBanMessage : Option String) :
    ApiResp String × AccessStore × List AccessStore :=
  let clientID := normalizeStrOpt bodyClientID
  let banMessage := clampStrOpt bodyBanMessage 500
  if clientID = "" then (.badRequest "clientID required", store, [])
  else
    let er := ensureClientRecord store now clientID
    match er.found with
    | none => (.badRequest "clientID required", er.store, er.saves)
    | some record =>
        let r := { record with status := "banned", banMessage := banMessage,
                               lastSeenAt := now }
        let store' := { er.store with clients := setKey er.store.clients (normalizeStr clientID) r }
        (.ok r.status, store', er.saves ++ [store'])

/-- `POST /api/admin/unban` handler. -/
def apiAdminUnban (store : AccessStore) (now : Nat)
    (bodyClientID : Option String) :
    ApiResp String × AccessStore × List AccessStore :=
  let clientID := normalizeStrOpt bodyClientID
  if clientID = "" then (.badRequest "clientID required", store, [])
  else
    let er := ensureClientRecord store now clientID
    match er.found with
    | none => (.badRequest "clientID required", er.store, er.saves)
    | some record =>
        let r := { record with status := "unverified", banMessage := "",
                               lastSeenAt := now }
        let store' := { er.store with clients := setKey er.store.clients (normalizeStr clientID) r }
        (.ok r.status, store', er.saves ++ [store'])

/-- `POST /api/admin/ban-ip` handler.  200 payload is `(ip, banned)`. -/
def apiAdminBanIP (store : AccessStore) (now : Nat)
    (bodyIp bodyBanMessage : Option String) :
    ApiResp (String × Bool) × AccessStore × List AccessStore :=
  let ip := normalizeStrOpt bodyIp
  let banMessage := clampStrOpt bodyBanMessage 500
  if ip = "" then (.badRequest "ip required", store, [])
  else
    let existing := lookupKey store.ipBans ip
    let createdAt := match existing with
      | some e => if e.createdAt ≠ 0 then e.createdAt else now
      | none => now
    let store' := { store with
                      ipBans := setKey store.ipBans ip
                                  ⟨banMessage, createdAt, now⟩ }
    (.ok (ip, true), store', [store'])

/-- `POST /api/admin/unban-ip` handler. -/
def apiAdminUnbanIP (store : AccessStore) (now : Nat) (bodyIp : Option String) :
    ApiResp (String × Bool) × AccessStore × List AccessStore :=
  let ip := normalizeStrOpt bodyIp
  if ip = "" then (.badRequest "ip required", store, [])
  else
    match lookupKey store.ipBans ip with
    | some _ =>
        let store' := { store with ipBans := delKey store.ipBans ip }
        (.ok (ip, false), store', [store'])
    | none => (.ok (ip, false), store, [])

/-- `POST /api/admin/lockdown` handler (the access-lockdown toggle).  The
body's `enabled` is coerced with `!!`; an absent field is `false`.  200
payload is the new flag. -/
def apiAdminLockdown (store : AccessStore) (bodyEnabled : Option Bool) :
    Bool × AccessStore × List AccessStore :=
  let enabled := bodyEnabled.getD false
  let store' := { store with lockdown := enabled }
  (store'.lockdown, store', [store'])

/-- The single site-wide broadcast. -/
structure Broadcast where
  id : String
  message : String
  createdAt : Nat
  expiresAt : Nat
deriving DecidableEq, Repr

/-- The `state` aggregate (site lockdown + broadcast). -/
structure SiteState where
  lockdownEnabled : Bool
  lockdownUpdatedAt : Nat
  broadcast : Option Broadcast
deriving DecidableEq, Repr

/-- JS `pruneExpiredBroadcast()`.  (The source also skips pruning when
`expiresAt` is not a number; here `expiresAt` is always a number.) -/
def pruneExpiredBroadcast (st : SiteState) (now : Nat) :
    SiteState × List SiteState :=
  match st.broadcast with
  | none => (st, [])
  | some b =>
      if b.expiresAt ≤ now then
        let st' := { st with broadcast := none }
        (st', [st'])
      else (st, [])

/-- The JSON body of a `GET /api/state` 200 reply. -/
structure StateResponse where
  ok : Bool
  lockdownEnabled : Bool
  lockdownUpdatedAt : Nat
  broadcast : Option Broadcast
deriving DecidableEq, Repr

/-- `GET /api/state` handler. -/
def apiState (st : SiteState) (now : Nat) :
    StateResponse × SiteState × List SiteState :=
  let (st1, sv) := pruneExpiredBroadcast st now
  ({ ok := true
     lockdownEnabled := st1.lockdownEnabled
     lockdownUpdatedAt := st1.lockdownUpdatedAt
     broadcast := st1.broadcast }, st1, sv)

/-- `GET /health` handler (replies `{ok:true}`; modelled by its state
effect). -/
def apiHealth (st : SiteState) (now : Nat) :
    Bool × SiteState × List SiteState :=
  let (st1, sv) := pruneExpiredBroadcast st now
  (true, st1, sv)

/-- The snapshot message sent to a newly opened realtime subscription. -/
structure WsSnapshot where
  lockdownEnabled : Bool
  lockdownUpdatedAt : Nat
  broadcast : Option Broadcast
deriving DecidableEq, Repr

/-- The `wss.on("connection")` handler: prune, then send the state
snapshot. -/
def wsConnection (st : SiteState) (now : Nat) :
    WsSnapshot × SiteState × List SiteState :=
  let (st1, sv) := pruneExpiredBroadcast st now
  ({ lockdownEnabled := st1.lockdownEnabled
     lockdownUpdatedAt := st1.lockdownUpdatedAt
     broadcast := st1.broadcast }, st1, sv)

/-- `POST /api/broadcast` handler.  `newId` stands for the random `makeId()`
result.  200 payload is the created broadcast. -/
def apiBroadcast (st : SiteState) (now : Nat) (newId : String)
    (bodyMessage : Option String) :
    ApiResp Broadcast × SiteState × List SiteState :=
  let msg := match bodyMessage with
    | some s => jsTrim s
    | none => ""
  if msg = "" then (.badRequest "message required", st, [])
  else
    let b : Broadcast := { id := newId, message := msg, createdAt := now,
                           expiresAt := now + 24 * 60 * 60 * 1000 }
    let st' := { st with broadcast := some b }
    (.ok b, st', [st'])

/-- The normalized status a store carries for a token (what the rest of the
code treats as the client's state-machine state). -/
def statusAt (store : AccessStore) (t : String) : Option String :=
  (lookupKey store.clients t).map (fun r => normalizeLegacyStatus r.status)

/-! ### Concrete stores and records used for evaluation -/

/-- A concrete verified client record. -/
def sampleVerified : ClientRecord :=
  { freshClientRecord 1 with status := "verified", verifiedAt := 1 }

/-- A concrete suspicious client record. -/
def sampleSuspicious : ClientRecord :=
  { freshClientRecord 1 with status := "suspicious", suspiciousAt := 1 }

/-- A concrete record still carrying the legacy `"unbanned"` status string. -/
def sampleUnbanned : ClientRecord :=
  { freshClientRecord 1 with status := "unbanned" }

/-- A concrete store with a verified client and one banned IP. -/
def ipBanStore : AccessStore :=
  ⟨false, [("c", sampleVerified)], [("1.2.3.4", ⟨"go away", 3, 3⟩)]⟩

/-- A concrete store with access-lockdown on and one suspicious client. -/
def lockdownSuspStore : AccessStore := ⟨true, [("c", sampleSuspicious)], []⟩

/-- A concrete store with access-lockdown on and no clients. -/
def emptyLockdownStore : AccessStore := ⟨true, [], []⟩

/-- A concrete store holding only the suspicious client `c`. -/
def suspOnlyStore : AccessStore := ⟨false, [("c", sampleSuspicious)], []⟩

/-- The empty store (no clients, no bans, lockdown off). -/
def emptyStore : AccessStore := ⟨false, [], []⟩

/-- A concrete store whose only client still has the legacy status string. -/
def legacyStore : AccessStore := ⟨false, [("c", sampleUnbanned)], []⟩

/-- A concrete store with an IP-ban record whose `createdAt` is `0`
(falsy in JS). -/
def zeroCreatedStore : AccessStore := ⟨false, [], [("1.2.3.4", ⟨"m", 0, 0⟩)]⟩

/-- A concrete store with an ordinary IP-ban record. -/
def bannedIPStore : AccessStore := ⟨false, [], [("1.2.3.4", ⟨"m", 2, 2⟩)]⟩

/-- A concrete broadcast whose expiry has passed by time `86400011`. -/
def expiredBroadcast : Broadcast := ⟨"b1", "hello", 10, 86400010⟩

/-- A concrete site state carrying `expiredBroadcast`. -/
def expiredSiteState : SiteState := ⟨false, 0, some expiredBroadcast⟩

/-! ### Map lemmas -/

theorem lookupKey_setKey_self {α : Type} (m : List (String × α)) (k : String)
    (v : α) : lookupKey (setKey m k v) k = some v := by
  induction m with
  | nil => simp [setKey, lookupKey]
  | cons p rest ih =>
      obtain ⟨k0, v0⟩ := p
      by_cases h : k0 = k <;> simp [setKey, lookupKey, h, ih]

theorem lookupKey_setKey_ne {α : Type} (m : List (String × α)) (k k' : String)
    (v : α) (h : k' ≠ k) : lookupKey (setKey m k v) k' = lookupKey m k' := by
  have hk : ¬(k = k') := fun hh => h hh.symm
  induction m with
  | nil => simp [setKey, lookupKey, hk]
  | cons p rest ih =>
      obtain ⟨k0, v0⟩ := p
      by_cases h0 : k0 = k
      · subst h0
        simp [setKey, lookupKey, hk]
      · simp [setKey, lookupKey, h0, ih]

theorem length_setKey_of_found {α : Type} (m : List (String × α))
    (k : String) (v v0 : α) (h : lookupKey m k = some v0) :
    (setKey m k v).length = m.length := by
  induction m with
  | nil => simp [lookupKey] at h
  | cons p rest ih =>
      obtain ⟨k0, v'⟩ := p
      by_cases h0 : k0 = k
      · simp [setKey, h0]
      · simp only [lookupKey, if_neg h0] at h
        simp [setKey, h0, ih h]

/-! ### Trim idempotence -/

theorem dropLeadingWS_head (l : List Char) (c : Char) (cs : List Char)
    (h : dropLeadingWS l = c :: cs) : c.isWhitespace = false := by
  induction l with
  | nil => simp [dropLeadingWS] at h
  | cons a as ih =>
      cases haw : a.isWhitespace with
      | false =>
          simp [dropLeadingWS, haw] at h
          rw [← h.1]
          exact haw
      | true =>
          simp [dropLeadingWS, haw] at h
          exact ih h

theorem dropLeadingWS_of_head (c : Char) (cs : List Char)
    (hc : c.isWhitespace = false) : dropLeadingWS (c :: cs) = c :: cs := by
  simp [dropLeadingWS, hc]

theorem dropLeadingWS_idem (l : List Char) :
    dropLeadingWS (dropLeadingWS l) = dropLeadingWS l := by
  cases hd : dropLeadingWS l with
  | nil => rfl
  | cons c cs => exact dropLeadingWS_of_head c cs (dropLeadingWS_head l c cs hd)

theorem dropLeadingWS_suffix (l : List Char) : dropLeadingWS l <:+ l := by
  induction l with
  | nil => simp [dropLeadingWS]
  | cons a as ih =>
      cases haw : a.isWhitespace with
      | false =>
          have he : dropLeadingWS (a :: as) = a :: as := by
            simp [dropLeadingWS, haw]
          rw [he]
      | true =>
          have he : dropLeadingWS (a :: as) = dropLeadingWS as := by
            simp [dropLeadingWS, haw]
          rw [he]
          exact ih.trans (List.suffix_cons a as)

theorem trimChars_step (l : List Char) :
    dropLeadingWS ((dropLeadingWS (dropLeadingWS l).reverse).reverse) =
      (dropLeadingWS (dropLeadingWS l).reverse).reverse := by
  cases hB : dropLeadingWS (dropLeadingWS l).reverse with
  | nil => rfl
  | cons b bs =>
      cases hA : dropLeadingWS l with
      | nil =>
          rw [hA] at hB
          simp [dropLeadingWS] at hB
      | cons a as =>
          have ha : a.isWhitespace = false := dropLeadingWS_head l a as hA
          have hsuf : dropLeadingWS (dropLeadingWS l).reverse <:+
              (dropLeadingWS l).reverse := dropLeadingWS_suffix _
          rw [hB, hA] at hsuf
          obtain ⟨pre, hpre⟩ := hsuf
          have hlast : (b :: bs).getLast? = (a :: as).reverse.getLast? := by
            rw [← hpre]
            exact (List.getLast?_append_of_ne_nil pre (by simp)).symm
          have hrevlast : (a :: as).reverse.getLast? = some a := by
            have hh := List.head?_reverse ((a :: as).reverse)
            rw [List.reverse_reverse] at hh
            rw [← hh]
            rfl
          have hhead : (b :: bs).reverse.head? = some a := by
            rw [List.head?_reverse, hlast, hrevlast]
          cases hrev : (b :: bs).reverse with
          | nil => simp at hrev
          | cons c cs =>
              rw [hrev] at hhead
              simp at hhead
              exact dropLeadingWS_of_head c cs (by rw [hhead]; exact ha)

theorem jsTrim_idem (s : String) : jsTrim (jsTrim s) = jsTrim s := by
  have h : (dropLeadingWS (dropLeadingWS ((dropLeadingWS (dropLeadingWS s.data).reverse).reverse)).reverse).reverse
      = (dropLeadingWS (dropLeadingWS s.data).reverse).reverse := by
    rw [trimChars_step]
    rw [List.reverse_reverse]
    exact trimChars_step s.data
  exact congrArg String.mk h

theorem normalizeStr_idem (s : String) :
    normalizeStr (normalizeStr s) = normalizeStr s := jsTrim_idem s

/-- A value produced by `normalizeStrOpt` is already trimmed. -/
theorem normalizeStr_normalizeStrOpt (o : Option String) :
    normalizeStr (normalizeStrOpt o) = normalizeStrOpt o := by
  cases o with
  | none => rfl
  | some s => exact jsTrim_idem s

/-! ### Status-normalization lemmas -/

theorem normalizeLegacyStatus_cases (s : String) :
    normalizeLegacyStatus s = "unverified" ∨ normalizeLegacyStatus s = "banned" ∨
    normalizeLegacyStatus s = "verified" ∨
    normalizeLegacyStatus s = "suspicious" := by
  unfold normalizeLegacyStatus
  dsimp only
  split_ifs <;> simp

theorem normalizeLegacyStatus_idem (s : String) :
    normalizeLegacyStatus (normalizeLegacyStatus s) = normalizeLegacyStatus s := by
  rcases normalizeLegacyStatus_cases s with h | h | h | h <;> rw [h] <;> decide

/-! ### Record-level frame lemmas -/

theorem applyTelemetry_status (record : ClientRecord) (now : Nat)
    (ipN uaHeader : String) (device : Option DeviceInfo) :
    (applyTelemetry record now ipN uaHeader device).status = record.status := by
  unfold applyTelemetry
  dsimp only
  split <;> rfl

theorem isDesktopish_set_status (r : ClientRecord) (σ : String) :
    isDesktopish { r with status := σ } = isDesktopish r := rfl

theorem statusAt_setKey (store : AccessStore) (k t : String) (r : ClientRecord) :
    statusAt { store with clients := setKey store.clients k r } t =
      if t = k then some (normalizeLegacyStatus r.status) else statusAt store t := by
  by_cases h : t = k
  · subst h
    simp [statusAt, lookupKey_setKey_self]
  · simp [statusAt, lookupKey_setKey_ne _ _ _ _ h, h]

/-! ### Frame lemmas for `ensureClientRecord` and telemetry -/

theorem ensure_lockdown (store : AccessStore) (now : Nat) (cid : String) :
    (ensureClientRecord store now cid).store.lockdown = store.lockdown := by
  unfold ensureClientRecord
  dsimp only
  split
  · rfl
  · split <;> rfl

theorem ensure_ipBans (store : AccessStore) (now : Nat) (cid : String) :
    (ensureClientRecord store now cid).store.ipBans = store.ipBans := by
  unfold ensureClientRecord
  dsimp only
  split
  · rfl
  · split <;> rfl

theorem ensure_statusAt (store : AccessStore) (now : Nat) (cid t : String)
    (s : String) (h : statusAt store t = some s) :
    statusAt (ensureClientRecord store now cid).store t = some s := by
  unfold ensureClientRecord
  dsimp only
  split
  · exact h
  · cases hlook : lookupKey store.clients (normalizeStr cid) with
    | some existing =>
        simp only [hlook, statusAt_setKey]
        by_cases ht : t = normalizeStr cid
        · subst ht
          simp only [statusAt, hlook] at h
          simp at h
          subst h
          simp [normalizeLegacyStatus_idem]
        · simp [ht, h]
    | none =>
        simp only [hlook, statusAt_setKey]
        by_cases ht : t = normalizeStr cid
        · subst ht
          simp [statusAt, hlook] at h
        · simp [ht, h]

theorem telemetry_lockdown (store : AccessStore) (now : Nat)
    (ip ua cid : String) (device : Option DeviceInfo) :
    (recordClientTelemetry store now ip ua cid device).1.lockdown =
      store.lockdown := by
  unfold recordClientTelemetry
  dsimp only
  cases h : (ensureClientRecord store now cid).found with
  | none => simp [h, ensure_lockdown]
  | some record => simp [h, ensure_lockdown]

theorem telemetry_ipBans (store : AccessStore) (now : Nat)
    (ip ua cid : String) (device : Option DeviceInfo) :
    (recordClientTelemetry store now ip ua cid device).1.ipBans =
      store.ipBans := by
  unfold recordClientTelemetry
  dsimp only
  cases h : (ensureClientRecord store now cid).found with
  | none => simp [h, ensure_ipBans]
  | some record => simp [h, ensure_ipBans]

theorem ensure_found_status (store : AccessStore) (now : Nat) (cid t : String)
    (s : String) (ht : t = normalizeStr cid) (hs : statusAt store t = some s)
    (record : ClientRecord)
    (hf : (ensureClientRecord store now cid).found = some record) :
    normalizeLegacyStatus record.status = s := by
  subst ht
  unfold ensureClientRecord at hf
  dsimp only at hf
  split at hf
  · simp at hf
  · cases hlook : lookupKey store.clients (normalizeStr cid) with
    | some existing =>
        rw [hlook] at hf
        simp only [Option.some.injEq] at hf
        subst hf
        simp only [statusAt, hlook] at hs
        simp at hs
        simpa [normalizeLegacyStatus_idem] using hs
    | none =>
        simp [statusAt, hlook] at hs

theorem telemetry_statusAt (store : AccessStore) (now : Nat)
    (ip ua cid : String) (device : Option DeviceInfo) (t s : String)
    (h : statusAt store t = some s) :
    statusAt (recordClientTelemetry store now ip ua cid device).1 t = some s := by
  unfold recordClientTelemetry
  dsimp only
  cases hf : (ensureClientRecord store now cid).found with
  | none => simpa using ensure_statusAt store now cid t s h
  | some record =>
      simp only [hf, statusAt_setKey]
      by_cases ht : t = normalizeStr cid
      · have hrec : normalizeLegacyStatus record.status = s :=
          ensure_found_status store now cid t s ht h record hf
        simp [ht, applyTelemetry_status, hrec]
      · simp [ht, ensure_statusAt store now cid t s h]

/-! ### Decision-engine frame lemmas -/

theorem ipBanDecision_eq_of_ipBans (s1 s2 : AccessStore) (ip : String)
    (h : s1.ipBans = s2.ipBans) : ipBanDecision s1 ip = ipBanDecision s2 ip := by
  unfold ipBanDecision
  rw [h]

/-- Full characterization of how one evaluation of `computeAccessDecision`
may move a client's stored status: every record survives, and its normalized
status changes only for the evaluated token, only from `unverified`, and only
to `suspicious` when the stored telemetry is desktop-class. -/
theorem cad_statusAt_full (store : AccessStore) (now : Nat) (ip cid t : String)
    (r : ClientRecord) (h : lookupKey store.clients t = some r) :
    ∃ r', lookupKey (computeAccessDecision store now ip cid).2.1.clients t = some r' ∧
      (normalizeLegacyStatus r'.status = normalizeLegacyStatus r.status ∨
       (t = normalizeStr cid ∧ normalizeLegacyStatus r.status = "unverified" ∧
        isDesktopish { r with status := normalizeLegacyStatus r.status } = true ∧
        r'.status = "suspicious")) := by
  unfold computeAccessDecision
  dsimp only
  cases hban : ipBanDecision store (getRequestIP ip) with
  | some d => exact ⟨r, h, Or.inl rfl⟩
  | none =>
    simp only [hban]
    by_cases hid : normalizeStr cid = ""
    · rw [if_pos hid]
      split <;> exact ⟨r, h, Or.inl rfl⟩
    · rw [if_neg hid]
      cases hlook : lookupKey store.clients (normalizeStr cid) with
      | none =>
          simp only [hlook]
          split <;> exact ⟨r, h, Or.inl rfl⟩
      | some rec0 =>
          simp only [hlook]
          by_cases ht : t = normalizeStr cid
          · subst ht
            have hr : rec0 = r := by
              rw [h] at hlook
              exact (Option.some.injEq _ _).mp hlook.symm ▸ rfl
            subst hr
            split_ifs with hb hsusp hdesk hlock hver
            · exact ⟨_, lookupKey_setKey_self _ _ _,
                Or.inl (normalizeLegacyStatus_idem _)⟩
            · exact ⟨_, lookupKey_setKey_self _ _ _,
                Or.inl (normalizeLegacyStatus_idem _)⟩
            · exact ⟨_, lookupKey_setKey_self _ _ _,
                Or.inr ⟨rfl, hdesk.1, hdesk.2, rfl⟩⟩
            · exact ⟨_, lookupKey_setKey_self _ _ _,
                Or.inl (normalizeLegacyStatus_idem _)⟩
            · exact ⟨_, lookupKey_setKey_self _ _ _,
                Or.inl (normalizeLegacyStatus_idem _)⟩
            · exact ⟨_, lookupKey_setKey_self _ _ _,
                Or.inl (normalizeLegacyStatus_idem _)⟩
          · have h1 : ∀ v : ClientRecord,
                lookupKey (setKey store.clients (normalizeStr cid) v) t = some r := by
              intro v
              rw [lookupKey_setKey_ne _ _ _ _ ht]
              exact h
            split_ifs with hb hsusp hdesk hlock hver
            · exact ⟨r, h1 _, Or.inl rfl⟩
            · exact ⟨r, h1 _, Or.inl rfl⟩
            · exact ⟨r, by rw [lookupKey_setKey_ne _ _ _ _ ht]; exact h1 _,
                Or.inl rfl⟩
            · exact ⟨r, h1 _, Or.inl rfl⟩
            · exact ⟨r, h1 _, Or.inl rfl⟩
            · exact ⟨r, h1 _, Or.inl rfl⟩

/-- A client whose normalized status is not `unverified` keeps it across an
evaluation. -/
theorem cad_statusAt (store : AccessStore) (now : Nat) (ip cid t s : String)
    (h : statusAt store t = some s) (hs : s ≠ "unverified") :
    statusAt (computeAccessDecision store now ip cid).2.1 t = some s := by
  have hr : ∃ r, lookupKey store.clients t = some r ∧
      normalizeLegacyStatus r.status = s := by
    unfold statusAt at h
    cases hl : lookupKey store.clients t with
    | none => rw [hl] at h; simp at h
    | some r => rw [hl] at h; simp at h; exact ⟨r, rfl, h⟩
  obtain ⟨r, hl, hns⟩ := hr
  obtain ⟨r', hl', hor⟩ := cad_statusAt_full store now ip cid t r hl
  rcases hor with heq | ⟨_, hunv, _, _⟩
  · unfold statusAt
    rw [hl']
    simp [heq, hns]
  · exact absurd (hns.symm.trans hunv) hs

/-! ### Claims -/

/-- C1: for every request whose source address has an IPBanRecord in the
AccessStore, `computeAccessDecision` returns `allowed:false, banned:true,
reason:"ip_ban"` together with that record's (clamped) ban message, leaves
the store untouched and persists nothing — for every client token, hence
regardless of the client's record or status, including a verified client. -/
theorem C1_ip_ban_overrides_everything (store : AccessStore) (now : Nat)
    (ip clientID : String) (banRecord : IPBanRecord)
    (hip : normalizeStr (getRequestIP ip) ≠ "")
    (hban : lookupKey store.ipBans (normalizeStr (getRequestIP ip)) =
      some banRecord) :
    computeAccessDecision store now ip clientID =
      ({ banned := true, allowed := false, reason := "ip_ban", status := none,
         banMessage := some (clampStr banRecord.message 500) }, store, []) := by
  have hdec : ipBanDecision store (getRequestIP ip) =
      some { banned := true, allowed := false, reason := "ip_ban",
             status := none,
             banMessage := some (clampStr banRecord.message 500) } := by
    unfold ipBanDecision
    dsimp only
    rw [if_neg hip, hban]
  unfold computeAccessDecision
  dsimp only
  rw [hdec]

/-- C1 witness: a request from the banned address `1.2.3.4` is denied with
the ban message even though client `c` is verified. -/
theorem C1_witness :
    normalizeStr (getRequestIP "1.2.3.4") ≠ "" ∧
    lookupKey ipBanStore.ipBans (normalizeStr (getRequestIP "1.2.3.4")) =
      some ⟨"go away", 3, 3⟩ ∧
    statusAt ipBanStore "c" = some "verified" ∧
    computeAccessDecision ipBanStore 5 "1.2.3.4" "c" =
      ({ banned := true, allowed := false, reason := "ip_ban", status := none,
         banMessage := some (clampStr "go away" 500) }, ipBanStore, []) :=
  ⟨by decide, by decide, by decide,
   C1_ip_ban_overrides_everything ipBanStore 5 "1.2.3.4" "c" ⟨"go away", 3, 3⟩
     (by decide) (by decide)⟩

/-- C3: a known client whose normalized status is `suspicious` gets
`allowed:true, banned:false, status:"suspicious"` and evaluation stops
there: the resulting store only carries the renormalized status string,
nothing is persisted, and the outcome is the same whatever the lockdown
flag or the stored telemetry — so a suspicious client is allowed even under
access-lockdown. -/
theorem C3_suspicious_short_circuits (store : AccessStore) (now : Nat)
    (ip clientID : String) (r : ClientRecord)
    (hip : ipBanDecision store (getRequestIP ip) = none)
    (hid : normalizeStr clientID ≠ "")
    (hr : lookupKey store.clients (normalizeStr clientID) = some r)
    (hs : normalizeLegacyStatus r.status = "suspicious") :
    computeAccessDecision store now ip clientID =
      ({ banned := false, allowed := true, reason := "client_suspicious",
         status := some "suspicious", banMessage := none },
       { store with clients := setKey store.clients (normalizeStr clientID) ({ r with status := "suspicious" }) }, []) := by
  have hrec : ({ r with status := normalizeLegacyStatus r.status } :
      ClientRecord) = { r with status := "suspicious" } := by rw [hs]
  unfold computeAccessDecision
  dsimp only
  rw [hip]
  rw [if_neg hid]
  rw [hr]
  simp only [hrec]
  rw [hs]
  simp

/-- Evaluation of `normalizeLegacyStatus` on the canonical status strings. -/
theorem nls_unverified : normalizeLegacyStatus "unverified" = "unverified" := by
  decide

theorem nls_verified : normalizeLegacyStatus "verified" = "verified" := by decide

theorem nls_banned : normalizeLegacyStatus "banned" = "banned" := by decide

theorem nls_suspicious : normalizeLegacyStatus "suspicious" = "suspicious" := by
  decide

/-- C3 witness: with access-lockdown on, the suspicious client `c` is still
allowed with reason `client_suspicious`. -/
theorem C3_witness :
    ipBanDecision lockdownSuspStore (getRequestIP "9.9.9.9") = none ∧
    normalizeStr "c" ≠ "" ∧
    normalizeLegacyStatus sampleSuspicious.status = "suspicious" ∧
    computeAccessDecision lockdownSuspStore 5 "9.9.9.9" "c" =
      ({ banned := false, allowed := true, reason := "client_suspicious",
         status := some "suspicious", banMessage := none },
       { lockdownSuspStore with clients := setKey lockdownSuspStore.clients (normalizeStr "c") ({ sampleSuspicious with status := "suspicious" }) }, []) :=
  ⟨by decide, by decide, by decide,
   C3_suspicious_short_circuits lockdownSuspStore 5 "9.9.9.9" "c"
     sampleSuspicious (by decide) (by decide) (by decide) (by decide)⟩

/-- C5: one evaluation of `computeAccessDecision` keeps every client record
present, and changes a client's (legacy-normalized) status only for the
evaluated token, only when the prior normalized status is exactly
`unverified` and the stored telemetry is desktop-class, and then only to
`suspicious` — so verified, suspicious and banned clients keep their status
across evaluations, and a suspicious client stays suspicious. -/
theorem C5_heuristic_gating_and_stickiness (store : AccessStore) (now : Nat)
    (ip clientID t : String) (r : ClientRecord)
    (h : lookupKey store.clients t = some r) :
    ∃ r', lookupKey (computeAccessDecision store now ip clientID).2.1.clients t = some r' ∧
      (normalizeLegacyStatus r'.status = normalizeLegacyStatus r.status ∨
       (t = normalizeStr clientID ∧ normalizeLegacyStatus r.status = "unverified" ∧
        isDesktopish ({ r with status := normalizeLegacyStatus r.status }) = true ∧
        r'.status = "suspicious")) :=
  cad_statusAt_full store now ip clientID t r h

/-- C5 witness: evaluating the suspicious client `c` leaves its normalized
status `suspicious`. -/
theorem C5_witness :
    lookupKey lockdownSuspStore.clients "c" = some sampleSuspicious ∧
    ∃ r', lookupKey (computeAccessDecision lockdownSuspStore 5 "9.9.9.9" "c").2.1.clients "c" = some r' ∧
      (normalizeLegacyStatus r'.status = normalizeLegacyStatus sampleSuspicious.status ∨
       ("c" = normalizeStr "c" ∧ normalizeLegacyStatus sampleSuspicious.status = "unverified" ∧
        isDesktopish ({ sampleSuspicious with status := normalizeLegacyStatus sampleSuspicious.status }) = true ∧
        r'.status = "suspicious")) :=
  ⟨by decide,
   C5_heuristic_gating_and_stickiness lockdownSuspStore 5 "9.9.9.9" "c" "c"
     sampleSuspicious (by decide)⟩

/-- C2 counterexample: under access-lockdown the known suspicious client `c`
is *allowed* (`reason:"client_suspicious"`), contradicting the claim that
every suspicious client receives `allowed:false` under lockdown. -/
theorem C2_counterexample :
    lockdownSuspStore.lockdown = true ∧
    statusAt lockdownSuspStore "c" = some "suspicious" ∧
    (computeAccessDecision lockdownSuspStore 5 "9.9.9.9" "c").1.allowed = true ∧
    (computeAccessDecision lockdownSuspStore 5 "9.9.9.9" "c").1.reason =
      "client_suspicious" :=
  ⟨rfl, by decide, by decide, by decide⟩

/-- C2 (amended): under access-lockdown (no IP ban, non-empty token) a
request with an unknown token is denied with `reason:"lockdown_unknown"`,
a known banned client is denied (`client_ban`), a known verified client is
allowed (`lockdown_verified`), and a known unverified client with
non-desktop telemetry is denied (`lockdown_not_verified`) — but, contrary
to the original claim, a known suspicious client is allowed, as is an
unverified client with desktop telemetry (reclassified to suspicious),
because those checks precede the lockdown check. -/
theorem C2_lockdown_gating_amended (store : AccessStore) (now : Nat)
    (ip clientID : String)
    (hlock : store.lockdown = true)
    (hip : ipBanDecision store (getRequestIP ip) = none)
    (hid : normalizeStr clientID ≠ "") :
    (lookupKey store.clients (normalizeStr clientID) = none →
       (computeAccessDecision store now ip clientID).1 =
         { banned := true, allowed := false, reason := "lockdown_unknown",
           status := none, banMessage := none }) ∧
    (∀ r, lookupKey store.clients (normalizeStr clientID) = some r →
       ((normalizeLegacyStatus r.status = "banned" →
           (computeAccessDecision store now ip clientID).1.allowed = false ∧
           (computeAccessDecision store now ip clientID).1.reason = "client_ban") ∧
        (normalizeLegacyStatus r.status = "verified" →
           (computeAccessDecision store now ip clientID).1.allowed = true ∧
           (computeAccessDecision store now ip clientID).1.reason = "lockdown_verified") ∧
        (normalizeLegacyStatus r.status = "unverified" →
           isDesktopish ({ r with status := normalizeLegacyStatus r.status }) = false →
           (computeAccessDecision store now ip clientID).1.allowed = false ∧
           (computeAccessDecision store now ip clientID).1.reason = "lockdown_not_verified") ∧
        (normalizeLegacyStatus r.status = "suspicious" →
           (computeAccessDecision store now ip clientID).1.allowed = true) ∧
        (normalizeLegacyStatus r.status = "unverified" →
           isDesktopish ({ r with status := normalizeLegacyStatus r.status }) = true →
           (computeAccessDecision store now ip clientID).1.allowed = true))) := by
  constructor
  · intro hnone
    unfold computeAccessDecision
    dsimp only
    rw [hip, if_neg hid, hnone]
    simp [hlock]
  · intro r hr
    refine ⟨?_, ?_, ?_, ?_, ?_⟩
    · intro hst
      unfold computeAccessDecision
      dsimp only
      simp only [hip, if_neg hid, hr]
      rw [hst]
      simp
    · intro hst
      unfold computeAccessDecision
      dsimp only
      simp only [hip, if_neg hid, hr]
      rw [hst]
      simp [hlock, nls_verified]
    · intro hst hdesk
      rw [hst] at hdesk
      unfold computeAccessDecision
      dsimp only
      simp only [hip, if_neg hid, hr]
      rw [hst]
      simp [hlock, hdesk, nls_unverified]
    · intro hst
      unfold computeAccessDecision
      dsimp only
      simp only [hip, if_neg hid, hr]
      rw [hst]
      simp
    · intro hst hdesk
      rw [hst] at hdesk
      unfold computeAccessDecision
      dsimp only
      simp only [hip, if_neg hid, hr]
      rw [hst]
      simp [hdesk]

/-- C2 witness: under access-lockdown an unknown token is denied with
`reason:"lockdown_unknown"`. -/
theorem C2_witness :
    emptyLockdownStore.lockdown = true ∧
    (computeAccessDecision emptyLockdownStore 5 "9.9.9.9" "u").1 =
      { banned := true, allowed := false, reason := "lockdown_unknown",
        status := none, banMessage := none } :=
  ⟨rfl,
   (C2_lockdown_gating_amended emptyLockdownStore 5 "9.9.9.9" "u" rfl
     (by decide) (by decide)).1 (by decide)⟩

/-- With a non-empty normalized id, `ensureClientRecord` always hands back a
record. -/
theorem ensure_found_some (store : AccessStore) (now : Nat) (cid : String)
    (h : normalizeStr cid ≠ "") :
    ∃ record, (ensureClientRecord store now cid).found = some record := by
  unfold ensureClientRecord
  dsimp only
  rw [if_neg h]
  cases hlook : lookupKey store.clients (normalizeStr cid) with
  | some existing => exact ⟨_, rfl⟩
  | none => exact ⟨_, rfl⟩

/-- C4 counterexample: client `c` is suspicious, yet a successful PIN check
at `/api/auth` moves it straight to `verified` — contradicting the claim
that only the operator verify endpoint can do that. -/
theorem C4_counterexample :
    statusAt suspOnlyStore "c" = some "suspicious" ∧
    (apiAuth suspOnlyStore 7 "1234" "" "" (some "c") (some "1234")).1 = true ∧
    statusAt (apiAuth suspOnlyStore 7 "1234" "" "" (some "c") (some "1234")).2.1 "c" =
      some "verified" :=
  ⟨by decide, by decide, by decide⟩

/-- C4 (amended): a suspicious client transitions to `verified` in exactly
two ways — the operator verify endpoint, or a successful PIN check at
`/api/auth` (which sets `verified` unconditionally); no other endpoint of
the server (hello, check, self-service unban, admin suspicious / clear /
ban / unban, IP ban / unban, lockdown toggle, a failed or mistargeted auth,
or a verify aimed at a different token) ever makes that client `verified`. -/
theorem C4_suspicious_to_verified_paths (store : AccessStore) (now : Nat)
    (authPin unbanPin ip ua t : String)
    (hts : statusAt store t = some "suspicious")
    (ht0 : t ≠ "") :
    (∀ tokRaw pinRaw : Option String, normalizeStrOpt tokRaw = t →
       authPin ≠ "" → normalizeStrOpt pinRaw = authPin →
       statusAt (apiAuth store now authPin ip ua tokRaw pinRaw).2.1 t =
         some "verified") ∧
    (∀ tokRaw : Option String, normalizeStrOpt tokRaw = t →
       statusAt (apiAdminVerify store now tokRaw).2.1 t = some "verified") ∧
    (∀ (tokRaw : Option String) (dev : Option DeviceInfo),
       statusAt (apiHello store now ip ua tokRaw dev).2.1 t ≠ some "verified") ∧
    (∀ tokRaw : Option String,
       statusAt (apiCheck store now ip ua tokRaw).2.1 t ≠ some "verified") ∧
    (∀ tokRaw pinRaw : Option String,
       statusAt (apiUnban store now unbanPin ip ua tokRaw pinRaw).2.1 t ≠
         some "verified") ∧
    (∀ tokRaw msgRaw : Option String,
       statusAt (apiAdminBan store now tokRaw msgRaw).2.1 t ≠ some "verified") ∧
    (∀ tokRaw : Option String,
       statusAt (apiAdminUnban store now tokRaw).2.1 t ≠ some "verified") ∧
    (∀ tokRaw : Option String,
       statusAt (apiAdminSuspicious store now tokRaw).2.1 t ≠ some "verified") ∧
    (∀ tokRaw : Option String,
       statusAt (apiAdminClearSuspicious store now tokRaw).2.1 t ≠
         some "verified") ∧
    (∀ tokRaw : Option String, normalizeStrOpt tokRaw ≠ t →
       statusAt (apiAdminVerify store now tokRaw).2.1 t = some "suspicious") ∧
    (∀ tokRaw pinRaw : Option String,
       (authPin = "" ∨ normalizeStrOpt pinRaw ≠ authPin ∨
        normalizeStrOpt tokRaw ≠ t) →
       statusAt (apiAuth store now authPin ip ua tokRaw pinRaw).2.1 t ≠
         some "verified") ∧
    (∀ ipRaw msgRaw : Option String,
       statusAt (apiAdminBanIP store now ipRaw msgRaw).2.1 t =
         some "suspicious") ∧
    (∀ ipRaw : Option String,
       statusAt (apiAdminUnbanIP store now ipRaw).2.1 t = some "suspicious") ∧
    (∀ en : Option Bool,
       statusAt (apiAdminLockdown store en).2.1 t = some "suspicious") := by
  refine ⟨?_, ?_, ?_, ?_, ?_, ?_, ?_, ?_, ?_, ?_, ?_, ?_, ?_, ?_⟩
  · -- successful auth verifies
    intro tokRaw pinRaw htok hap hpa
    unfold apiAuth
    dsimp only
    rw [htok, hpa]
    have hkeyT : normalizeStr t = t := by
      rw [← htok]
      exact normalizeStr_normalizeStrOpt tokRaw
    rw [if_pos ht0]
    rw [if_neg hap]
    rw [if_pos (⟨rfl, ht0⟩ : authPin = authPin ∧ t ≠ "")]
    cases hf : (ensureClientRecord
        (recordClientTelemetry store now ip ua t none).1 now t).found with
    | none =>
        obtain ⟨r0, hr0⟩ :=
          ensure_found_some (recordClientTelemetry store now ip ua t none).1
            now t (by rw [hkeyT]; exact ht0)
        rw [hf] at hr0
        simp at hr0
    | some record =>
        simp only [hf]
        rw [statusAt_setKey, hkeyT]
        simp [nls_verified]
  · -- operator verify verifies
    intro tokRaw htok
    unfold apiAdminVerify
    dsimp only
    rw [htok]
    rw [if_neg ht0]
    have hkeyT : normalizeStr t = t := by
      rw [← htok]
      exact normalizeStr_normalizeStrOpt tokRaw
    cases hf : (ensureClientRecord store now t).found with
    | none =>
        obtain ⟨r0, hr0⟩ :=
          ensure_found_some store now t (by rw [hkeyT]; exact ht0)
        rw [hf] at hr0
        simp at hr0
    | some record =>
        simp only [hf]
        rw [statusAt_setKey, hkeyT]
        simp [nls_verified]
  · -- hello
    intro tokRaw dev
    unfold apiHello
    dsimp only
    by_cases hc : normalizeStrOpt tokRaw = ""
    · rw [if_pos hc]
      simp [hts]
    · rw [if_neg hc]
      have hs1 := telemetry_statusAt store now ip ua (normalizeStrOpt tokRaw)
        dev t "suspicious" hts
      have := ensure_statusAt
        (recordClientTelemetry store now ip ua (normalizeStrOpt tokRaw) dev).1
        now (normalizeStrOpt tokRaw) t "suspicious" hs1
      simp [this]
  · -- check
    intro tokRaw
    unfold apiCheck
    dsimp only
    by_cases hc : normalizeStrOpt tokRaw = ""
    · have hskip : ¬(normalizeStrOpt tokRaw ≠ "") := fun hn => hn hc
      rw [if_neg hskip]
      have := cad_statusAt store now ip (normalizeStrOpt tokRaw) t
        "suspicious" hts (by decide)
      simp [this]
    · rw [if_pos hc]
      have hs1 := telemetry_statusAt store now ip ua (normalizeStrOpt tokRaw)
        none t "suspicious" hts
      have := cad_statusAt
        (recordClientTelemetry store now ip ua (normalizeStrOpt tokRaw) none).1
        now ip (normalizeStrOpt tokRaw) t "suspicious" hs1 (by decide)
      simp [this]
  · -- self-service unban
    intro tokRaw pinRaw
    unfold apiUnban
    dsimp only
    by_cases hc : normalizeStrOpt tokRaw = ""
    · rw [if_pos hc]
      simp [hts]
    · rw [if_neg hc]
      have hs1 := telemetry_statusAt store now ip ua (normalizeStrOpt tokRaw)
        none t "suspicious" hts
      by_cases hup : unbanPin = ""
      · rw [if_pos hup]
        simp [hs1]
      · rw [if_neg hup]
        by_cases hpm : normalizeStrOpt pinRaw ≠ unbanPin
        · rw [if_pos hpm]
          simp [hs1]
        · rw [if_neg hpm]
          have hpres := ensure_statusAt
            (recordClientTelemetry store now ip ua (normalizeStrOpt tokRaw) none).1
            now (normalizeStrOpt tokRaw) t "suspicious" hs1
          cases hf : (ensureClientRecord
              (recordClientTelemetry store now ip ua (normalizeStrOpt tokRaw) none).1
              now (normalizeStrOpt tokRaw)).found with
          | none =>
              simp only [hf]
              simp [hpres]
          | some record =>
              simp only [hf]
              rw [statusAt_setKey]
              by_cases ht2 : t = normalizeStr (normalizeStrOpt tokRaw)
              · simp [ht2, nls_unverified]
              · simp [ht2, hpres]
  · -- admin ban
    intro tokRaw msgRaw
    unfold apiAdminBan
    dsimp only
    by_cases hc : normalizeStrOpt tokRaw = ""
    · rw [if_pos hc]
      simp [hts]
    · rw [if_neg hc]
      have hpres := ensure_statusAt store now (normalizeStrOpt tokRaw) t
        "suspicious" hts
      cases hf : (ensureClientRecord store now (normalizeStrOpt tokRaw)).found with
      | none =>
          simp only [hf]
          simp [hpres]
      | some record =>
          simp only [hf]
          rw [statusAt_setKey]
          by_cases ht2 : t = normalizeStr (normalizeStrOpt tokRaw)
          · simp [ht2, nls_banned]
          · simp [ht2, hpres]
  · -- admin unban
    intro tokRaw
    unfold apiAdminUnban
    dsimp only
    by_cases hc : normalizeStrOpt tokRaw = ""
    · rw [if_pos hc]
      simp [hts]
    · rw [if_neg hc]
      have hpres := ensure_statusAt store now (normalizeStrOpt tokRaw) t
        "suspicious" hts
      cases hf : (ensureClientRecord store now (normalizeStrOpt tokRaw)).found with
      | none =>
          simp only [hf]
          simp [hpres]
      | some record =>
          simp only [hf]
          rw [statusAt_setKey]
          by_cases ht2 : t = normalizeStr (normalizeStrOpt tokRaw)
          · simp [ht2, nls_unverified]
          · simp [ht2, hpres]
  · -- admin suspicious
    intro tokRaw
    unfold apiAdminSuspicious
    dsimp only
    by_cases hc : normalizeStrOpt tokRaw = ""
    · rw [if_pos hc]
      simp [hts]
    · rw [if_neg hc]
      have hpres := ensure_statusAt store now (normalizeStrOpt tokRaw) t
        "suspicious" hts
      cases hf : (ensureClientRecord store now (normalizeStrOpt tokRaw)).found with
      | none =>
          simp only [hf]
          simp [hpres]
      | some record =>
          simp only [hf]
          rw [statusAt_setKey]
          by_cases ht2 : t = normalizeStr (normalizeStrOpt tokRaw)
          · simp [ht2, nls_suspicious]
          · simp [ht2, hpres]
  · -- admin clear-suspicious
    intro tokRaw
    unfold apiAdminClearSuspicious
    dsimp only
    by_cases hc : normalizeStrOpt tokRaw = ""
    · rw [if_pos hc]
      simp [hts]
    · rw [if_neg hc]
      have hpres := ensure_statusAt store now (normalizeStrOpt tokRaw) t
        "suspicious" hts
      cases hf : (ensureClientRecord store now (normalizeStrOpt tokRaw)).found with
      | none =>
          simp only [hf]
          simp [hpres]
      | some record =>
          simp only [hf]
          by_cases hsp : normalizeLegacyStatus record.status = "suspicious"
          · rw [if_pos hsp]
            dsimp only
            rw [statusAt_setKey]
            by_cases ht2 : t = normalizeStr (normalizeStrOpt tokRaw)
            · simp [ht2, nls_unverified]
            · simp [ht2, hpres]
          · rw [if_neg hsp]
            simp [hpres]
  · -- operator verify aimed at a different token
    intro tokRaw htokne
    unfold apiAdminVerify
    dsimp only
    by_cases hc : normalizeStrOpt tokRaw = ""
    · rw [if_pos hc]
      exact hts
    · rw [if_neg hc]
      cases hf : (ensureClientRecord store now (normalizeStrOpt tokRaw)).found with
      | none =>
          simp only [hf]
          exact ensure_statusAt store now (normalizeStrOpt tokRaw) t
            "suspicious" hts
      | some record =>
          simp only [hf]
          rw [statusAt_setKey]
          rw [normalizeStr_normalizeStrOpt tokRaw]
          have htne : ¬(t = normalizeStrOpt tokRaw) := fun hh => htokne hh.symm
          rw [if_neg htne]
          exact ensure_statusAt store now (normalizeStrOpt tokRaw) t
            "suspicious" hts
  · -- failed or mistargeted auth
    intro tokRaw pinRaw hfail
    unfold apiAuth
    dsimp only
    by_cases hc : normalizeStrOpt tokRaw = ""
    · have hskip : ¬(normalizeStrOpt tokRaw ≠ "") := fun hn => hn hc
      rw [if_neg hskip]
      by_cases hap : authPin = ""
      · rw [if_pos hap]
        simp [hts]
      · rw [if_neg hap]
        have hno : ¬(normalizeStrOpt pinRaw = authPin ∧
            normalizeStrOpt tokRaw ≠ "") := fun hand => hand.2 hc
        rw [if_neg hno]
        simp [hts]
    · rw [if_pos hc]
      have hs1 := telemetry_statusAt store now ip ua (normalizeStrOpt tokRaw)
        none t "suspicious" hts
      by_cases hap : authPin = ""
      · rw [if_pos hap]
        simp [hs1]
      · rw [if_neg hap]
        rcases hfail with hap' | hpin | htok'
        · exact absurd hap' hap
        · have hno : ¬(normalizeStrOpt pinRaw = authPin ∧
              normalizeStrOpt tokRaw ≠ "") := fun hand => hpin hand.1
          rw [if_neg hno]
          simp [hs1]
        · by_cases hpin2 : normalizeStrOpt pinRaw = authPin
          · rw [if_pos (⟨hpin2, hc⟩ :
              normalizeStrOpt pinRaw = authPin ∧ ¬normalizeStrOpt tokRaw = "")]
            have hpres := ensure_statusAt
              (recordClientTelemetry store now ip ua (normalizeStrOpt tokRaw) none).1
              now (normalizeStrOpt tokRaw) t "suspicious" hs1
            cases hf : (ensureClientRecord
                (recordClientTelemetry store now ip ua (normalizeStrOpt tokRaw) none).1
                now (normalizeStrOpt tokRaw)).found with
            | none =>
                simp only [hf]
                simp [hpres]
            | some record =>
                simp only [hf]
                rw [statusAt_setKey]
                rw [normalizeStr_normalizeStrOpt tokRaw]
                have htne : ¬(t = normalizeStrOpt tokRaw) :=
                  fun hh => htok' hh.symm
                rw [if_neg htne]
                simp [hpres]
          · have hno : ¬(normalizeStrOpt pinRaw = authPin ∧
                normalizeStrOpt tokRaw ≠ "") := fun hand => hpin2 hand.1
            rw [if_neg hno]
            simp [hs1]
  · -- ban-ip leaves client records alone
    intro ipRaw msgRaw
    unfold apiAdminBanIP
    dsimp only
    by_cases hip0 : normalizeStrOpt ipRaw = ""
    · rw [if_pos hip0]
      exact hts
    · rw [if_neg hip0]
      exact hts
  · -- unban-ip leaves client records alone
    intro ipRaw
    unfold apiAdminUnbanIP
    dsimp only
    by_cases hip0 : normalizeStrOpt ipRaw = ""
    · rw [if_pos hip0]
      exact hts
    · rw [if_neg hip0]
      cases hlook : lookupKey store.ipBans (normalizeStrOpt ipRaw) with
      | some e =>
          simp only [hlook]
          exact hts
      | none =>
          simp only [hlook]
          exact hts
  · -- lockdown toggle leaves client records alone
    intro en
    unfold apiAdminLockdown
    dsimp only
    exact hts

/-- C4 witness: the operator verify endpoint moves the suspicious client `c`
to `verified`. -/
theorem C4_witness :
    statusAt suspOnlyStore "c" = some "suspicious" ∧ ("c" : String) ≠ "" ∧
    statusAt (apiAdminVerify suspOnlyStore 7 (some "c")).2.1 "c" =
      some "verified" :=
  ⟨by decide, by decide,
   (C4_suspicious_to_verified_paths suspOnlyStore 7 "1234" "9999" "" "" "c"
     (by decide) (by decide)).2.1 (some "c") (by decide)⟩

/-- Telemetry on a previously unknown (non-empty) token stores exactly the
fresh record with the request's telemetry applied. -/
theorem telemetry_new_record (store : AccessStore) (now : Nat)
    (ip ua cid : String) (hid : normalizeStr cid ≠ "")
    (hnone : lookupKey store.clients (normalizeStr cid) = none) :
    lookupKey (recordClientTelemetry store now ip ua cid none).1.clients
        (normalizeStr cid) =
      some (applyTelemetry (freshClientRecord now) now (getRequestIP ip) ua none) := by
  unfold recordClientTelemetry
  dsimp only
  have hfound : (ensureClientRecord store now cid).found =
      some (freshClientRecord now) := by
    unfold ensureClientRecord
    dsimp only
    rw [if_neg hid, hnone]
  rw [hfound]
  dsimp only
  exact lookupKey_setKey_self _ _ _

/-- Evaluating `/api/check`'s decision for a token that was unknown before
the telemetry step: the record created by the telemetry makes the client
known-`unverified`, so the decision is `known_allowed` (no lockdown) or
`lockdown_not_verified` (lockdown), never the unknown-client reasons. -/
theorem cad_fresh_after_telemetry (store : AccessStore) (now : Nat)
    (ip ua cid0 : String)
    (hkey : normalizeStr cid0 = cid0)
    (hid : cid0 ≠ "")
    (hnone : lookupKey store.clients cid0 = none)
    (hip : ipBanDecision store (getRequestIP ip) = none)
    (hua : isDesktopish
      (applyTelemetry (freshClientRecord now) now (getRequestIP ip) ua none) =
      false) :
    computeAccessDecision (recordClientTelemetry store now ip ua cid0 none).1
        now ip cid0 =
      ((if store.lockdown = true then
          { banned := true, allowed := false, reason := "lockdown_not_verified",
            status := some "unverified", banMessage := none }
        else
          { banned := false, allowed := true, reason := "known_allowed",
            status := some "unverified", banMessage := none }),
       { (recordClientTelemetry store now ip ua cid0 none).1 with
           clients := setKey
             (recordClientTelemetry store now ip ua cid0 none).1.clients cid0
             ({ applyTelemetry (freshClientRecord now) now (getRequestIP ip) ua
                  none with status := "unverified" }) },
       []) := by
  have hid' : normalizeStr cid0 ≠ "" := by rw [hkey]; exact hid
  have h1 := telemetry_new_record store now ip ua cid0 hid'
    (by rw [hkey]; exact hnone)
  rw [hkey] at h1
  have hipb : ipBanDecision (recordClientTelemetry store now ip ua cid0 none).1
      (getRequestIP ip) = none := by
    rw [ipBanDecision_eq_of_ipBans _ store _
      (telemetry_ipBans store now ip ua cid0 none)]
    exact hip
  have hlock1 : (recordClientTelemetry store now ip ua cid0 none).1.lockdown =
      store.lockdown := telemetry_lockdown store now ip ua cid0 none
  have hns : normalizeLegacyStatus
      (applyTelemetry (freshClientRecord now) now (getRequestIP ip) ua none).status =
      "unverified" := by
    rw [applyTelemetry_status]
    exact nls_unverified
  unfold computeAccessDecision
  dsimp only
  rw [hkey, hipb, if_neg hid, h1]
  simp only [hns]
  rw [isDesktopish_set_status]
  simp only [hua, hlock1]
  cases hl : store.lockdown with
  | true =>
      simp [nls_unverified]
  | false =>
      simp

/-- C6 counterexample: `POST /api/check` for the fresh token `abc` answers
`reason:"known_allowed"`, not the claimed `"unknown_allowed"` — the
telemetry step creates the record before the decision runs. -/
theorem C6_counterexample :
    (apiCheck emptyStore 1 "9.9.9.9" "" (some "abc")).1.reason =
      "known_allowed" ∧
    (apiCheck emptyStore 1 "9.9.9.9" "" (some "abc")).1.reason ≠
      "unknown_allowed" ∧
    (apiCheck emptyStore 1 "9.9.9.9" "" (some "abc")).1.allowed = true ∧
    (apiCheck emptyStore 1 "9.9.9.9" "" (some "abc")).1.status = "unverified" :=
  ⟨by decide, by decide, by decide, by decide⟩

/-- C6 (amended): with access-lockdown off, no IP ban, a trimmed non-empty
token with no record, and non-desktop request telemetry, `POST /api/check`
answers `{allowed:true, banned:false, status:"unverified",
reason:"known_allowed"}` — the telemetry step creates the record before the
decision, so the `unknown_allowed` reason is unreachable through this
endpoint. -/
theorem C6_check_new_token_known_allowed (store : AccessStore) (now : Nat)
    (ip ua : String) (bodyClientID : Option String)
    (hid : normalizeStrOpt bodyClientID ≠ "")
    (hunknown : lookupKey store.clients (normalizeStrOpt bodyClientID) = none)
    (hlock : store.lockdown = false)
    (hip : ipBanDecision store (getRequestIP ip) = none)
    (hua : isDesktopish
      (applyTelemetry (freshClientRecord now) now (getRequestIP ip) ua none) =
      false) :
    (apiCheck store now ip ua bodyClientID).1 =
      { ok := true, banned := false, allowed := true, lockdown := false,
        status := "unverified", reason := "known_allowed", banMessage := "" } := by
  unfold apiCheck
  dsimp only
  rw [if_pos hid]
  have hcad := cad_fresh_after_telemetry store now ip ua
    (normalizeStrOpt bodyClientID) (normalizeStr_normalizeStrOpt bodyClientID)
    hid hunknown hip hua
  rw [hcad]
  dsimp only
  rw [hlock]
  simp [jsOr, telemetry_lockdown, hlock]

/-- C6 witness: the concrete scenario — empty store, token `abc`, empty
user agent. -/
theorem C6_witness :
    normalizeStrOpt (some "abc") ≠ "" ∧ emptyStore.lockdown = false ∧
    (apiCheck emptyStore 1 "9.9.9.9" "" (some "abc")).1 =
      { ok := true, banned := false, allowed := true, lockdown := false,
        status := "unverified", reason := "known_allowed", banMessage := "" } :=
  ⟨by decide, rfl,
   C6_check_new_token_known_allowed emptyStore 1 "9.9.9.9" "" (some "abc")
     (by decide) (by decide) rfl (by decide) (by decide)⟩

/-- C7 counterexample: after enabling access-lockdown, `POST /api/check`
for the fresh token `abc` answers `reason:"lockdown_not_verified"`, not the
claimed `"lockdown_unknown"`. -/
theorem C7_counterexample :
    (apiCheck (apiAdminLockdown emptyStore (some true)).2.1 1 "9.9.9.9" ""
        (some "abc")).1.reason = "lockdown_not_verified" ∧
    (apiCheck (apiAdminLockdown emptyStore (some true)).2.1 1 "9.9.9.9" ""
        (some "abc")).1.reason ≠ "lockdown_unknown" ∧
    (apiCheck (apiAdminLockdown emptyStore (some true)).2.1 1 "9.9.9.9" ""
        (some "abc")).1.allowed = false :=
  ⟨by decide, by decide, by decide⟩

/-- C7 (amended): after `POST /api/admin/lockdown {enabled:true}`, a
`POST /api/check` with a trimmed non-empty token that has no record (no IP
ban, non-desktop telemetry) is denied — but with
`reason:"lockdown_not_verified"`, because the telemetry step creates the
record before the decision runs, so `lockdown_unknown` is unreachable
through this endpoint.  (With desktop telemetry the client would instead be
marked suspicious and allowed.) -/
theorem C7_lockdown_check_new_token (store : AccessStore) (now : Nat)
    (ip ua : String) (bodyClientID : Option String)
    (hid : normalizeStrOpt bodyClientID ≠ "")
    (hunknown : lookupKey store.clients (normalizeStrOpt bodyClientID) = none)
    (hip : ipBanDecision store (getRequestIP ip) = none)
    (hua : isDesktopish
      (applyTelemetry (freshClientRecord now) now (getRequestIP ip) ua none) =
      false) :
    (apiCheck (apiAdminLockdown store (some true)).2.1 now ip ua bodyClientID).1 =
      { ok := true, banned := true, allowed := false, lockdown := true,
        status := "unverified", reason := "lockdown_not_verified",
        banMessage := "" } := by
  unfold apiAdminLockdown
  dsimp only
  simp only [Option.getD_some]
  unfold apiCheck
  dsimp only
  rw [if_pos hid]
  have hcad := cad_fresh_after_telemetry { store with lockdown := true } now ip
    ua (normalizeStrOpt bodyClientID) (normalizeStr_normalizeStrOpt bodyClientID)
    hid hunknown hip hua
  rw [hcad]
  dsimp only
  simp [jsOr, telemetry_lockdown]

/-- C7 witness: the concrete scenario — lockdown switched on over the empty
store, then a check for the fresh token `abc`. -/
theorem C7_witness :
    normalizeStrOpt (some "abc") ≠ "" ∧
    (apiAdminLockdown emptyStore (some true)).2.1.lockdown = true ∧
    (apiCheck (apiAdminLockdown emptyStore (some true)).2.1 1 "9.9.9.9" ""
        (some "abc")).1 =
      { ok := true, banned := true, allowed := false, lockdown := true,
        status := "unverified", reason := "lockdown_not_verified",
        banMessage := "" } :=
  ⟨by decide, rfl,
   C7_lockdown_check_new_token emptyStore 1 "9.9.9.9" "" (some "abc")
     (by decide) (by decide) (by decide) (by decide)⟩

/-- C8: a broadcast created at time `T` carries
`expiresAt = T + 86400000`, and every operation that reads `SiteState`
(state query, health check, new realtime subscription) prunes first: at or
after expiry each observes `broadcast:null` and persists exactly the
cleared state before responding. -/
theorem C8_broadcast_lifecycle (st : SiteState) (T now : Nat)
    (newId msg : String) (b : Broadcast)
    (hmsg : jsTrim msg ≠ "")
    (hb : st.broadcast = some b) (hexp : b.expiresAt ≤ now) :
    (∃ bb, (apiBroadcast st T newId (some msg)).1 = .ok bb ∧
       bb.createdAt = T ∧ bb.expiresAt = T + 86400000) ∧
    ((apiState st now).1.broadcast = none ∧
     (apiState st now).2.2 = [{ st with broadcast := none }]) ∧
    ((apiHealth st now).2.1.broadcast = none ∧
     (apiHealth st now).2.2 = [{ st with broadcast := none }]) ∧
    ((wsConnection st now).1.broadcast = none ∧
     (wsConnection st now).2.2 = [{ st with broadcast := none }]) := by
  have hprune : pruneExpiredBroadcast st now =
      ({ st with broadcast := none }, [{ st with broadcast := none }]) := by
    unfold pruneExpiredBroadcast
    rw [hb]
    dsimp only
    rw [if_pos hexp]
  refine ⟨?_, ?_, ?_, ?_⟩
  · refine ⟨{ id := newId, message := jsTrim msg, createdAt := T, expiresAt := T + 24 * 60 * 60 * 1000 }, ?_, rfl, by norm_num⟩
    unfold apiBroadcast
    dsimp only
    rw [if_neg hmsg]
  · unfold apiState
    dsimp only
    rw [hprune]
    exact ⟨rfl, rfl⟩
  · unfold apiHealth
    dsimp only
    rw [hprune]
    exact ⟨rfl, rfl⟩
  · unfold wsConnection
    dsimp only
    rw [hprune]
    exact ⟨rfl, rfl⟩

/-- C8 witness: the expired broadcast is cleared and the clearing persisted
by a state read at `86400011`. -/
theorem C8_witness :
    jsTrim "hi" ≠ "" ∧ expiredSiteState.broadcast = some expiredBroadcast ∧
    expiredBroadcast.expiresAt ≤ 86400011 ∧
    ((∃ bb, (apiBroadcast expiredSiteState 50 "b2" (some "hi")).1 = .ok bb ∧
        bb.createdAt = 50 ∧ bb.expiresAt = 50 + 86400000) ∧
     ((apiState expiredSiteState 86400011).1.broadcast = none ∧
      (apiState expiredSiteState 86400011).2.2 =
        [{ expiredSiteState with broadcast := none }]) ∧
     ((apiHealth expiredSiteState 86400011).2.1.broadcast = none ∧
      (apiHealth expiredSiteState 86400011).2.2 =
        [{ expiredSiteState with broadcast := none }]) ∧
     ((wsConnection expiredSiteState 86400011).1.broadcast = none ∧
      (wsConnection expiredSiteState 86400011).2.2 =
        [{ expiredSiteState with broadcast := none }])) :=
  ⟨by decide, rfl, by decide,
   C8_broadcast_lifecycle expiredSiteState 50 86400011 "b2" "hi"
     expiredBroadcast (by decide) rfl (by decide)⟩

/-- C9 counterexample: for the existing record of `c` carrying the legacy
status string `"unbanned"`, `ensureClientRecord` also rewrites the status
field (to `"unverified"`) — `lastSeenAt` is not the only field that
changes, contradicting the claim's frame condition. -/
theorem C9_counterexample :
    lookupKey legacyStore.clients "c" = some sampleUnbanned ∧
    sampleUnbanned.status = "unbanned" ∧
    lookupKey ((ensureClientRecord legacyStore 9 "c").store).clients "c" =
      some ({ sampleUnbanned with lastSeenAt := 9, status := "unverified" }) :=
  ⟨by decide, by decide, by decide⟩

/-- C9 (amended): for a trimmed non-empty token with no existing record,
`ensureClientRecord` creates the fresh `unverified` record and persists
exactly the new store, once; for a token with an existing record it
refreshes `lastSeenAt` and renormalizes the legacy status string (a no-op
when the status is already canonical), changes nothing else in the record
or the store, and does not persist. -/
theorem C9_ensureClient_frame (store : AccessStore) (now : Nat)
    (token : String) (hid : normalizeStr token ≠ "") :
    (lookupKey store.clients (normalizeStr token) = none →
       ensureClientRecord store now token =
         ⟨some (freshClientRecord now),
          { store with clients := setKey store.clients (normalizeStr token) (freshClientRecord now) },
          [{ store with clients := setKey store.clients (normalizeStr token) (freshClientRecord now) }]⟩) ∧
    (∀ r, lookupKey store.clients (normalizeStr token) = some r →
       ensureClientRecord store now token =
         ⟨some ({ r with lastSeenAt := now, status := normalizeLegacyStatus r.status }),
          { store with clients := setKey store.clients (normalizeStr token) ({ r with lastSeenAt := now, status := normalizeLegacyStatus r.status }) },
          []⟩) := by
  constructor
  · intro hnone
    unfold ensureClientRecord
    dsimp only
    rw [if_neg hid, hnone]
  · intro r hr
    unfold ensureClientRecord
    dsimp only
    rw [if_neg hid, hr]

/-- C9 witness: first sight of token `n` creates the fresh record and
persists the new store. -/
theorem C9_witness :
    normalizeStr "n" ≠ "" ∧
    lookupKey emptyStore.clients (normalizeStr "n") = none ∧
    ensureClientRecord emptyStore 4 "n" =
      ⟨some (freshClientRecord 4),
       { emptyStore with clients := setKey emptyStore.clients (normalizeStr "n") (freshClientRecord 4) },
       [{ emptyStore with clients := setKey emptyStore.clients (normalizeStr "n") (freshClientRecord 4) }]⟩ :=
  ⟨by decide, by decide,
   (C9_ensureClient_frame emptyStore 4 "n" (by decide)).1 (by decide)⟩

/-- C10 counterexample: re-banning the already-banned address `1.2.3.4`
whose record carries `createdAt = 0` (falsy in JS) does not preserve the
original `createdAt` — the stored record afterwards has `createdAt = 5`,
the current time. -/
theorem C10_counterexample :
    lookupKey zeroCreatedStore.ipBans "1.2.3.4" = some ⟨"m", 0, 0⟩ ∧
    lookupKey (apiAdminBanIP zeroCreatedStore 5 (some "1.2.3.4")
        (some "spam")).2.1.ipBans "1.2.3.4" = some ⟨"spam", 5, 5⟩ :=
  ⟨by decide, by decide⟩

/-- C10 (amended): re-banning an already-banned address whose record has a
non-zero (truthy) `createdAt` replaces the message and `updatedAt`,
preserves `createdAt`, leaves every other address's record untouched and
adds no second record; a record with `createdAt = 0` instead gets the
current time (see the counterexample).  Unbanning an address with no ban
record leaves the store unchanged, persists nothing, and still answers
`{ok:true, ip, banned:false}`. -/
theorem C10_ip_ban_frame (store : AccessStore) (now : Nat)
    (bodyIp bodyMsg : Option String)
    (hip : normalizeStrOpt bodyIp ≠ "") :
    (∀ e, lookupKey store.ipBans (normalizeStrOpt bodyIp) = some e →
       e.createdAt ≠ 0 →
       (apiAdminBanIP store now bodyIp bodyMsg =
         (.ok (normalizeStrOpt bodyIp, true),
          { store with ipBans := setKey store.ipBans (normalizeStrOpt bodyIp) ⟨clampStrOpt bodyMsg 500, e.createdAt, now⟩ },
          [{ store with ipBans := setKey store.ipBans (normalizeStrOpt bodyIp) ⟨clampStrOpt bodyMsg 500, e.createdAt, now⟩ }])) ∧
       (setKey store.ipBans (normalizeStrOpt bodyIp) ⟨clampStrOpt bodyMsg 500, e.createdAt, now⟩).length = store.ipBans.length ∧
       (∀ a, a ≠ normalizeStrOpt bodyIp →
          lookupKey (setKey store.ipBans (normalizeStrOpt bodyIp) ⟨clampStrOpt bodyMsg 500, e.createdAt, now⟩) a = lookupKey store.ipBans a)) ∧
    (lookupKey store.ipBans (normalizeStrOpt bodyIp) = none →
       apiAdminUnbanIP store now bodyIp =
         (.ok (normalizeStrOpt bodyIp, false), store, [])) := by
  constructor
  · intro e he hc
    refine ⟨?_, length_setKey_of_found _ _ _ e he,
      fun a ha => lookupKey_setKey_ne _ _ _ _ ha⟩
    unfold apiAdminBanIP
    dsimp only
    rw [if_neg hip, he]
    dsimp only
    rw [if_pos hc]
  · intro hnone
    unfold apiAdminUnbanIP
    dsimp only
    rw [if_neg hip, hnone]

/-- C10 witness: re-banning `1.2.3.4` (original `createdAt = 2`) with a new
message keeps `createdAt = 2` and replaces message and `updatedAt`. -/
theorem C10_witness :
    normalizeStrOpt (some "1.2.3.4") ≠ "" ∧
    lookupKey bannedIPStore.ipBans (normalizeStrOpt (some "1.2.3.4")) =
      some ⟨"m", 2, 2⟩ ∧
    apiAdminBanIP bannedIPStore 5 (some "1.2.3.4") (some "spam") =
      (.ok (normalizeStrOpt (some "1.2.3.4"), true),
       { bannedIPStore with ipBans := setKey bannedIPStore.ipBans (normalizeStrOpt (some "1.2.3.4")) ⟨clampStrOpt (some "spam") 500, 2, 5⟩ },
       [{ bannedIPStore with ipBans := setKey bannedIPStore.ipBans (normalizeStrOpt (some "1.2.3.4")) ⟨clampStrOpt (some "spam") 500, 2, 5⟩ }]) :=
  ⟨by decide, by decide,
   ((C10_ip_ban_frame bannedIPStore 5 (some "1.2.3.4") (some "spam")
       (by decide)).1 ⟨"m", 2, 2⟩ (by decide) (by decide)).1⟩

end Panel
